import Mathlib

/-!
# Verification of the MHTCET preference-list core

Shallow embedding of `app/utils.py` and the request-validation part of
`app/main.py`: dataset loading and cleaning, the admission-probability
scorer, the probability interpretation, the filter pipeline of
`generate_preference_list`, the sort / preference numbering, and the
range-parameter validation of the `/api/predict` route.

Ranks are embedded as `Int` (the CSV values are integers; pandas floats
carry no fractional part here), probabilities as `ℚ` (python floats whose
values are small integers), and a pandas `DataFrame` as a `List` of
records.  A data source that cannot be read or parsed is `none`.
-/

/-- One raw CSV row before cleaning.  `cutoffRank` / `cutoffPercentile`
are the results of `pd.to_numeric(..., errors="coerce")`: `none` means
the cell was unparsable (NaN after coercion). -/
structure RawRecord where
  collegeCode : String
  collegeName : String
  branchCode : String
  branchName : String
  categoryCode : String
  quota : String
  category : String
  seatType : String
  round : String
  cutoffRank : Option Int
  cutoffPercentile : Option Int
deriving DecidableEq

/-- One cleaned row of the cutoff dataset (a `CutoffRecord`). -/
structure Record where
  collegeCode : String
  collegeName : String
  branchCode : String
  branchName : String
  categoryCode : String
  quota : String
  category : String
  seatType : String
  round : String
  cutoffRank : Int
  cutoffPercentile : Int
deriving DecidableEq

/-- Embedding of `str.strip()` on a python string: drop leading and trailing
whitespace. -/
def strip (s : String) : String :=
  String.mk (((s.data.dropWhile Char.isWhitespace).reverse.dropWhile
    Char.isWhitespace).reverse)

/-- The cleaning step of `load_data` applied to one row:
`pd.to_numeric(...).fillna(999999)` on the cutoff rank,
`pd.to_numeric(...).fillna(0)` on the percentile, `astype(str)` on the
round, and `.str.strip()` on the text columns. -/
def cleanRecord (r : RawRecord) : Record :=
  { collegeCode := r.collegeCode
    collegeName := strip r.collegeName
    branchCode := r.branchCode
    branchName := strip r.branchName
    categoryCode := r.categoryCode
    quota := strip r.quota
    category := strip r.category
    seatType := strip r.seatType
    round := r.round
    cutoffRank := r.cutoffRank.getD 999999
    cutoffPercentile := r.cutoffPercentile.getD 0 }

/-- Embedding of `load_data` from `app/utils.py`.  The input is the read/parse result of
the CSV source: `none` when the source cannot be read (the `except`
branch returns `None`).  On success every row is cleaned and the rows
whose cutoff rank equals the sentinel `999999` are removed. -/
def load_data (source : Option (List RawRecord)) : Option (List Record) :=
  source.map fun rows =>
    (rows.map cleanRecord).filter fun r => r.cutoffRank != 999999

/-- Embedding of `calculate_admission_probability` from `app/utils.py`: the fixed-delta
piecewise heuristic on `rank_difference = student_rank - cutoff_rank`. -/
def calculate_admission_probability (student_rank : Int) (cutoff_rank : Int) : ℚ :=
  if cutoff_rank = 999999 ∨ cutoff_rank = 0 then 0
  else
    let rank_difference := student_rank - cutoff_rank
    if rank_difference ≤ 0 then
      let abs_difference := |rank_difference|
      if abs_difference ≥ 800 then 95
      else if abs_difference ≥ 500 then 90
      else if abs_difference ≥ 300 then 85
      else if abs_difference ≥ 100 then 80
      else 75
    else
      if rank_difference ≤ 200 then 60
      else if rank_difference ≤ 500 then 45
      else if rank_difference ≤ 1000 then 30
      else if rank_difference ≤ 1500 then 20
      else if rank_difference ≤ 2000 then 10
      else if rank_difference ≤ 3000 then 5
      else 0

/-- Embedding of `get_probability_interpretation` from `app/utils.py`. -/
def get_probability_interpretation (probability : ℚ) : String :=
  if probability ≥ 85 then "Very High Chance"
  else if probability ≥ 70 then "High Chance"
  else if probability ≥ 50 then "Good Chance"
  else if probability ≥ 30 then "Moderate Chance"
  else if probability ≥ 15 then "Low Chance"
  else if probability > 0 then "Very Low Chance"
  else "No Chance"

/-- A record annotated with its admission probability and chance label
(a `ScoredRecord`). -/
structure ScoredRecord where
  record : Record
  probability : ℚ
  chances : String
deriving DecidableEq

/-- The scoring step of `generate_preference_list`: the probability
column and the interpretation column. -/
def scoreRecord (student_rank : Int) (r : Record) : ScoredRecord :=
  let p := calculate_admission_probability student_rank r.cutoffRank
  { record := r, probability := p, chances := get_probability_interpretation p }

/-- One row of the final result after projection to the output columns
(`result_columns` of `generate_preference_list`; the quota, category,
seat-type and round columns are not part of the output). -/
structure ResultRow where
  preference : Nat
  collegeCode : String
  collegeName : String
  branchCode : String
  branchName : String
  categoryCode : String
  cutoffRank : Int
  cutoffPercentile : Int
  probability : ℚ
  chances : String
deriving DecidableEq

/-- The plot dictionary returned with the result (`x` values, plot kind,
bin count). -/
structure PlotData where
  x : List ℚ
  plotKind : String
  nbinsx : Nat
deriving DecidableEq

/-- The empty-histogram dictionary produced by every early return of
`generate_preference_list`. -/
def emptyPlot : PlotData :=
  { x := [], plotKind := "histogram", nbinsx := 20 }

/-- The categorical filter stage of `generate_preference_list`: quota,
category and seat type each filtered unless the criterion is `"All"`,
then the mandatory round equality filter. -/
def applyCategoricalFilters (quota category seat_type round_no : String)
    (df : List Record) : List Record :=
  let df1 := if quota ≠ "All" then df.filter (fun r => r.quota == quota) else df
  let df2 := if category ≠ "All" then df1.filter (fun r => r.category == category) else df1
  let df3 := if seat_type ≠ "All" then df2.filter (fun r => r.seatType == seat_type) else df2
  df3.filter fun r => r.round == round_no

/-- The cutoff-rank window stage of `generate_preference_list`:
`min_cutoff_rank = max(1, student_rank - rank_range_lower)`,
`max_cutoff_rank = student_rank + rank_range_upper`, keeping the records
inside the window whose cutoff rank is not the sentinel. -/
def applyRangeFilter (student_rank rank_range_lower rank_range_upper : Int)
    (df : List Record) : List Record :=
  let min_cutoff_rank := max 1 (student_rank - rank_range_lower)
  let max_cutoff_rank := student_rank + rank_range_upper
  df.filter fun r =>
    decide (min_cutoff_rank ≤ r.cutoffRank) &&
    decide (r.cutoffRank ≤ max_cutoff_rank) &&
    (r.cutoffRank != 999999)

/-- The cutoff-rank window stage without its sentinel-exclusion
conjunct; used only to compare with `applyRangeFilter` on loaded data. -/
def applyRangeFilterNoSentinel (student_rank rank_range_lower rank_range_upper : Int)
    (df : List Record) : List Record :=
  let min_cutoff_rank := max 1 (student_rank - rank_range_lower)
  let max_cutoff_rank := student_rank + rank_range_upper
  df.filter fun r =>
    decide (min_cutoff_rank ≤ r.cutoffRank) &&
    decide (r.cutoffRank ≤ max_cutoff_rank)

/-- The comparison of `df.sort_values(['Admission Probability (%)',
'Cutoff rank'], ascending=[False, True])`: probability descending, then
cutoff rank ascending. -/
def prefLE (a b : ScoredRecord) : Bool :=
  decide (b.probability < a.probability) ||
    (decide (a.probability = b.probability) && decide (a.record.cutoffRank ≤ b.record.cutoffRank))

/-- Projection of a scored record to the output columns together with
its 1-based preference number. -/
def toResultRow (pref : Nat) (s : ScoredRecord) : ResultRow :=
  { preference := pref
    collegeCode := s.record.collegeCode
    collegeName := s.record.collegeName
    branchCode := s.record.branchCode
    branchName := s.record.branchName
    categoryCode := s.record.categoryCode
    cutoffRank := s.record.cutoffRank
    cutoffPercentile := s.record.cutoffPercentile
    probability := s.probability
    chances := s.chances }

/-- Embedding of `df['Preference'] = range(1, len(df) + 1)` after the sort: number the
rows 1, 2, … in order. -/
def addPreferences (l : List ScoredRecord) : List ResultRow :=
  (List.enumFrom 1 l).map fun p => toResultRow p.1 p.2

/-- Embedding of `generate_preference_list` from `app/utils.py`.  The first argument is
the raw data source handed to `load_data`.  Each early return (data
unavailable, or an empty set after the categorical, range or probability
filter) yields the empty frame with the empty histogram. -/
def generate_preference_list (source : Option (List RawRecord))
    (student_rank : Int) (quota category seat_type round_no : String)
    (min_probability : ℚ) (rank_range_lower rank_range_upper : Int) :
    List ResultRow × PlotData :=
  match load_data source with
  | none => ([], emptyPlot)
  | some df0 =>
    let df1 := applyCategoricalFilters quota category seat_type round_no df0
    if df1.isEmpty then ([], emptyPlot)
    else
      let df2 := applyRangeFilter student_rank rank_range_lower rank_range_upper df1
      if df2.isEmpty then ([], emptyPlot)
      else
        let scored := df2.map (scoreRecord student_rank)
        let kept := scored.filter fun s => decide (min_probability ≤ s.probability)
        if kept.isEmpty then ([], emptyPlot)
        else
          let sortedRows := kept.mergeSort prefLE
          let result := addPreferences sortedRows
          (result,
            { x := result.map fun r => r.probability
              plotKind := "histogram"
              nbinsx := 20 })

/-- Embedding of `validate_inputs` from `app/utils.py`. -/
def validate_inputs (student_rank : Int)
    (quota category seat_type round_no : String) : Bool × String :=
  if student_rank = 0 ∨ student_rank ≤ 0 then
    (false, "Please enter a valid MHTCET rank (greater than 0)")
  else if student_rank > 200000 then
    (false, "MHTCET rank seems too high. Please check your rank.")
  else if quota = "" then (false, "Please select a quota")
  else if category = "" then (false, "Please select a category")
  else if seat_type = "" then (false, "Please select a seat type")
  else if round_no = "" then (false, "Please select a round")
  else (true, "")

/-- Embedding of `validate_range_parameters` from `app/utils.py` (defined there for the
range bounds, including the sum bound). -/
def validate_range_parameters (student_rank rank_range_lower rank_range_upper : Int) :
    Bool × String :=
  if rank_range_lower < 0 then (false, "Safe range cannot be negative")
  else if rank_range_upper < 0 then (false, "Stretch range cannot be negative")
  else if rank_range_lower > student_rank then
    (false, "Safe range is larger than your rank - this might include ranks below 1")
  else if rank_range_lower > 5000 then (false, "Safe range is too large (maximum 5000)")
  else if rank_range_upper > 10000 then (false, "Stretch range is too large (maximum 10000)")
  else if rank_range_lower + rank_range_upper > 15000 then
    (false, "Total search range is too large - please reduce either safe or stretch range")
  else (true, "Range parameters are valid")

/-- Outcome of the `/api/predict` route: an HTTP 400 rejection with a
detail message, or a successful response. -/
inductive PredictOutcome where
  | rejected (detail : String)
  | success (preferences : List ResultRow) (plot : PlotData)
deriving DecidableEq

/-- Embedding of `predict_preferences` from `app/main.py`: input validation, then the
inline range-parameter checks, then generation; an empty result frame is
returned as an empty success response. -/
def predict_preferences (source : Option (List RawRecord))
    (student_rank : Int) (quota category seat_type round_no : String)
    (min_probability : ℚ) (rank_range_lower rank_range_upper : Int) :
    PredictOutcome :=
  let v := validate_inputs student_rank quota category seat_type round_no
  if v.1 = false then .rejected v.2
  else if rank_range_lower < 0 then
    .rejected "Safe range (rank_range_lower) must be non-negative"
  else if rank_range_upper < 0 then
    .rejected "Stretch range (rank_range_upper) must be non-negative"
  else if rank_range_lower > 5000 then
    .rejected "Safe range too large (maximum 5000)"
  else if rank_range_upper > 10000 then
    .rejected "Stretch range too large (maximum 10000)"
  else
    let rp := generate_preference_list source student_rank quota category
      seat_type round_no min_probability rank_range_lower rank_range_upper
    if rp.1.isEmpty then .success [] emptyPlot
    else .success rp.1 rp.2

/-- The tier table of spec §4.2, written from the spec's words; used only
to compare with `calculate_admission_probability`. -/
def specScoreTable (student_rank cutoff_rank : Int) : ℚ :=
  if cutoff_rank = 999999 ∨ cutoff_rank = 0 then 0
  else
    let diff := student_rank - cutoff_rank
    if diff ≤ 0 then
      let margin := |diff|
      if margin ≥ 800 then 95
      else if margin ≥ 500 then 90
      else if margin ≥ 300 then 85
      else if margin ≥ 100 then 80
      else 75
    else
      if diff ≤ 200 then 60
      else if diff ≤ 500 then 45
      else if diff ≤ 1000 then 30
      else if diff ≤ 1500 then 20
      else if diff ≤ 2000 then 10
      else if diff ≤ 3000 then 5
      else 0

/-- The interpretation table of spec §4.2, written from the spec's words;
used only to compare with `get_probability_interpretation`. -/
def specInterpretTable (p : ℚ) : String :=
  if p ≥ 85 then "Very High Chance"
  else if p ≥ 70 then "High Chance"
  else if p ≥ 50 then "Good Chance"
  else if p ≥ 30 then "Moderate Chance"
  else if p ≥ 15 then "Low Chance"
  else if p > 0 then "Very Low Chance"
  else "No Chance"

/-- Lookup in a threshold table: the value attached to the first
threshold that `d` does not exceed, 0 past the last threshold;
proof-internal reformulation of the staircase of
`calculate_admission_probability`. -/
def stepLookup (d : Int) : List (Int × ℚ) → ℚ
  | [] => 0
  | (t, v) :: rest => if d ≤ t then v else stepLookup d rest

/-- The thresholds and values of the staircase of
`calculate_admission_probability`, on the signed difference with the
absolute value eliminated. -/
def tierSteps : List (Int × ℚ) :=
  [(-800, 95), (-500, 90), (-300, 85), (-100, 80), (0, 75),
   (200, 60), (500, 45), (1000, 30), (1500, 20), (2000, 10), (3000, 5)]

/-- The staircase of `calculate_admission_probability` as a function of
the signed difference. -/
def tierTableOfDiff (d : Int) : ℚ := stepLookup d tierSteps

lemma stepLookup_le {d : Int} {v : ℚ} (tbl : List (Int × ℚ))
    (h : ∀ x ∈ tbl, x.2 ≤ v) (h0 : 0 ≤ v) : stepLookup d tbl ≤ v := by
  induction tbl with
  | nil => simpa [stepLookup] using h0
  | cons hd rest ih =>
    obtain ⟨t, w⟩ := hd
    simp only [stepLookup]
    split_ifs with ht
    · exact h (t, w) (List.mem_cons_self _ _)
    · exact ih fun x hx => h x (List.mem_cons_of_mem _ hx)

lemma stepLookup_anti {d1 d2 : Int} (h : d1 ≤ d2) (tbl : List (Int × ℚ))
    (hp : tbl.Pairwise fun a b => b.2 ≤ a.2) (h0 : ∀ x ∈ tbl, 0 ≤ x.2) :
    stepLookup d2 tbl ≤ stepLookup d1 tbl := by
  induction tbl with
  | nil => exact le_refl _
  | cons hd rest ih =>
    obtain ⟨t, v⟩ := hd
    obtain ⟨hhd, hp'⟩ := List.pairwise_cons.mp hp
    simp only [stepLookup]
    split_ifs with h2 h1 h1
    · exact le_refl _
    · exact absurd (le_trans h h2) h1
    · exact stepLookup_le rest (fun x hx => hhd x hx) (h0 (t, v) (List.mem_cons_self _ _))
    · exact ih hp' fun x hx => h0 x (List.mem_cons_of_mem _ hx)

lemma tierTable_anti {d1 d2 : Int} (h : d1 ≤ d2) :
    tierTableOfDiff d2 ≤ tierTableOfDiff d1 :=
  stepLookup_anti h tierSteps (by decide) (by decide)

lemma calculate_eq_tierTable (r c : Int) (h9 : c ≠ 999999) (h0 : c ≠ 0) :
    calculate_admission_probability r c = tierTableOfDiff (r - c) := by
  simp only [calculate_admission_probability, tierTableOfDiff, tierSteps, stepLookup]
  rw [if_neg (by push_neg; exact ⟨h9, h0⟩)]
  rcases le_or_lt (r - c) 0 with h | h
  · rw [if_pos h, abs_of_nonpos h]
    simp only [ge_iff_le,
      show ∀ x : Int, (800 ≤ -x) ↔ x ≤ -800 from fun x => by omega,
      show ∀ x : Int, (500 ≤ -x) ↔ x ≤ -500 from fun x => by omega,
      show ∀ x : Int, (300 ≤ -x) ↔ x ≤ -300 from fun x => by omega,
      show ∀ x : Int, (100 ≤ -x) ↔ x ≤ -100 from fun x => by omega]
    rw [if_pos h]
  · rw [if_neg (not_le.mpr h)]
    conv_rhs => rw [if_neg (show ¬(r - c ≤ -800) by omega),
      if_neg (show ¬(r - c ≤ -500) by omega), if_neg (show ¬(r - c ≤ -300) by omega),
      if_neg (show ¬(r - c ≤ -100) by omega), if_neg (show ¬(r - c ≤ 0) by omega)]

/-- C1: for every positive `student_rank` and every `cutoff_rank`,
`calculate_admission_probability` returns exactly the piecewise value of
the spec's tier table (sentinel or zero cutoff giving 0, the margin tiers
95/90/85/80/75 for `diff ≤ 0`, the gap tiers 60/45/30/20/10/5/0 for
`diff > 0`), and the result always lies in
`{0, 5, 10, 20, 30, 45, 60, 75, 80, 85, 90, 95}`. -/
theorem calculate_probability_matches_spec_table (student_rank cutoff_rank : Int)
    (h : 0 < student_rank) :
    calculate_admission_probability student_rank cutoff_rank =
      specScoreTable student_rank cutoff_rank ∧
    calculate_admission_probability student_rank cutoff_rank ∈
      ({0, 5, 10, 20, 30, 45, 60, 75, 80, 85, 90, 95} : Finset ℚ) := by
  refine ⟨rfl, ?_⟩
  simp only [calculate_admission_probability]
  split_ifs <;> decide

/-- Witness for C1 at `student_rank = 1000`, `cutoff_rank = 1800`. -/
theorem calculate_probability_matches_spec_table_witness :
    (0 : Int) < 1000 ∧
    (calculate_admission_probability 1000 1800 = specScoreTable 1000 1800 ∧
      calculate_admission_probability 1000 1800 ∈
        ({0, 5, 10, 20, 30, 45, 60, 75, 80, 85, 90, 95} : Finset ℚ)) :=
  ⟨by decide, calculate_probability_matches_spec_table 1000 1800 (by decide)⟩

/-- C4: `get_probability_interpretation` returns exactly the spec's
label table, boundaries inclusive on each tier's lower bound, evaluated
top-down with the first match winning. -/
theorem interpretation_matches_spec_table (p : ℚ) :
    get_probability_interpretation p = specInterpretTable p := rfl

/-- C6: holding the cutoff fixed at any value that is neither the
sentinel nor 0, the probability is monotone non-increasing in
`diff = student_rank - cutoff_rank`. -/
theorem probability_monotone_in_diff (cutoff_rank r1 r2 : Int)
    (h9 : cutoff_rank ≠ 999999) (h0 : cutoff_rank ≠ 0)
    (h : r1 - cutoff_rank ≤ r2 - cutoff_rank) :
    calculate_admission_probability r2 cutoff_rank ≤
      calculate_admission_probability r1 cutoff_rank := by
  rw [calculate_eq_tierTable r1 cutoff_rank h9 h0,
    calculate_eq_tierTable r2 cutoff_rank h9 h0]
  exact tierTable_anti h

/-- Witness for C6 at `cutoff_rank = 1000`, `r1 = 900`, `r2 = 1500`. -/
theorem probability_monotone_in_diff_witness :
    (1000 : Int) ≠ 999999 ∧ (1000 : Int) ≠ 0 ∧
    (900 : Int) - 1000 ≤ (1500 : Int) - 1000 ∧
    calculate_admission_probability 1500 1000 ≤
      calculate_admission_probability 900 1000 :=
  ⟨by decide, by decide, by decide,
    probability_monotone_in_diff 1000 900 1500 (by decide) (by decide) (by decide)⟩

/-- The seven labels of `get_probability_interpretation`, in the order of
its branches: the six chance tiers of spec §4.2, then the catch-all
`"No Chance"`. -/
def tierLabel : Fin 7 → String
  | 0 => "Very High Chance"
  | 1 => "High Chance"
  | 2 => "Good Chance"
  | 3 => "Moderate Chance"
  | 4 => "Low Chance"
  | 5 => "Very Low Chance"
  | 6 => "No Chance"

/-- The score classes of the seven labels: the six chance tiers of spec
§4.2, each cut off above by the next tier's lower bound, and the
residual class `p ≤ 0`. -/
def tierClass : Fin 7 → ℚ → Prop
  | 0 => fun p => p ≥ 85
  | 1 => fun p => p ≥ 70 ∧ p < 85
  | 2 => fun p => p ≥ 50 ∧ p < 70
  | 3 => fun p => p ≥ 30 ∧ p < 50
  | 4 => fun p => p ≥ 15 ∧ p < 30
  | 5 => fun p => p > 0 ∧ p < 15
  | 6 => fun p => p ≤ 0

/-- The index of the branch of `get_probability_interpretation` that a
probability falls into. -/
def tierIndex (p : ℚ) : Fin 7 :=
  if p ≥ 85 then 0
  else if p ≥ 70 then 1
  else if p ≥ 50 then 2
  else if p ≥ 30 then 3
  else if p ≥ 15 then 4
  else if p > 0 then 5
  else 6

lemma interpretation_eq_tierLabel (p : ℚ) :
    get_probability_interpretation p = tierLabel (tierIndex p) := by
  unfold get_probability_interpretation tierIndex
  split_ifs <;> rfl

lemma tierClass_iff_tierIndex (p : ℚ) (i : Fin 7) :
    tierClass i p ↔ tierIndex p = i := by
  unfold tierIndex
  split_ifs with h1 h2 h3 h4 h5 h6 <;>
    fin_cases i <;>
    simp only [tierClass, ge_iff_le, gt_iff_lt] <;>
    constructor <;>
    intro hh <;>
    first
      | rfl
      | exact absurd hh (by decide)
      | linarith
      | (exact ⟨by linarith, by linarith⟩)

/-- Counterexample to C5 as stated: the valid score 0 — producible, e.g.
`calculate_admission_probability 5000 1000 = 0` — lies in the score range
`[0, 95]` but is mapped to `"No Chance"`, a seventh label that belongs to
none of the six chance tiers, so `get_probability_interpretation` does
not partition `[0, 95]` into exactly six tiers. -/
theorem six_tier_partition_counterexample :
    calculate_admission_probability 5000 1000 = 0 ∧
    (0 : ℚ) ∈ Set.Icc (0 : ℚ) 95 ∧
    get_probability_interpretation 0 = "No Chance" ∧
    "No Chance" ∉ ["Very High Chance", "High Chance", "Good Chance",
      "Moderate Chance", "Low Chance", "Very Low Chance"] ∧
    ¬ ((0 : ℚ) ≥ 85 ∨ ((0 : ℚ) ≥ 70 ∧ (0 : ℚ) < 85) ∨ ((0 : ℚ) ≥ 50 ∧ (0 : ℚ) < 70) ∨
      ((0 : ℚ) ≥ 30 ∧ (0 : ℚ) < 50) ∨ ((0 : ℚ) ≥ 15 ∧ (0 : ℚ) < 30) ∨
      ((0 : ℚ) > 0 ∧ (0 : ℚ) < 15)) :=
  ⟨by decide, ⟨le_refl 0, by norm_num⟩, by decide, by decide, by decide⟩

/-- C5 as amended: `get_probability_interpretation` partitions the score
range `[0, 95]` into exactly seven non-overlapping, exhaustive classes —
the six chance tiers plus the residual `"No Chance"` class at 0 — with
seven pairwise-distinct labels, and every score in the range (hence every
value producible by `calculate_admission_probability`) falls into exactly
one class and receives exactly that class's label. -/
theorem interpretation_seven_class_partition (p : ℚ)
    (h0 : 0 ≤ p) (h95 : p ≤ 95) :
    (∃! i : Fin 7, tierClass i p) ∧
    (∀ i : Fin 7, tierClass i p → get_probability_interpretation p = tierLabel i) ∧
    (List.map tierLabel [0, 1, 2, 3, 4, 5, 6]).Nodup := by
  refine ⟨⟨tierIndex p, (tierClass_iff_tierIndex p _).mpr rfl,
    fun j hj => ((tierClass_iff_tierIndex p j).mp hj).symm⟩, fun i hi => ?_, by decide⟩
  rw [interpretation_eq_tierLabel, (tierClass_iff_tierIndex p i).mp hi]

/-- Witness for the amended C5 at `p = 40`. -/
theorem interpretation_seven_class_partition_witness :
    (0 : ℚ) ≤ 40 ∧ (40 : ℚ) ≤ 95 ∧
    ((∃! i : Fin 7, tierClass i 40) ∧
      (∀ i : Fin 7, tierClass i 40 → get_probability_interpretation 40 = tierLabel i) ∧
      (List.map tierLabel [0, 1, 2, 3, 4, 5, 6]).Nodup) :=
  ⟨by norm_num, by norm_num,
    interpretation_seven_class_partition 40 (by norm_num) (by norm_num)⟩

lemma mem_of_mem_ite_filter {p : Record → Bool} {l : List Record} {b : Prop}
    [Decidable b] {x : Record} (h : x ∈ if b then l.filter p else l) : x ∈ l := by
  split at h
  · exact (List.mem_filter.mp h).1
  · exact h

lemma mem_of_mem_applyCategoricalFilters {q c st rn : String} {df : List Record}
    {r : Record} (h : r ∈ applyCategoricalFilters q c st rn df) : r ∈ df := by
  unfold applyCategoricalFilters at h
  exact mem_of_mem_ite_filter (mem_of_mem_ite_filter
    (mem_of_mem_ite_filter (List.mem_filter.mp h).1))

/-- C2: every record surviving the rank-window stage of
`generate_preference_list` has its cutoff rank inside
`[max(1, student_rank - lower), student_rank + upper]` and distinct from
the unknown sentinel 999999. -/
theorem range_stage_window_invariant (df : List Record)
    (student_rank rank_range_lower rank_range_upper : Int) (r : Record)
    (hr : 0 < student_rank) (hl : 0 ≤ rank_range_lower) (hu : 0 ≤ rank_range_upper)
    (hm : r ∈ applyRangeFilter student_rank rank_range_lower rank_range_upper df) :
    max 1 (student_rank - rank_range_lower) ≤ r.cutoffRank ∧
    r.cutoffRank ≤ student_rank + rank_range_upper ∧
    r.cutoffRank ≠ 999999 := by
  unfold applyRangeFilter at hm
  simp only [List.mem_filter, Bool.and_eq_true, decide_eq_true_eq, bne_iff_ne] at hm
  exact ⟨hm.2.1.1, hm.2.1.2, hm.2.2⟩

/-- A concrete cleaned record used by the witnesses. -/
def sampleRecord : Record :=
  { collegeCode := "C1", collegeName := "Alpha", branchCode := "B1",
    branchName := "CS", categoryCode := "GOPENS", quota := "General",
    category := "Open", seatType := "State Level", round := "1",
    cutoffRank := 1000, cutoffPercentile := 99 }

/-- A concrete raw data source used by the witnesses: one parsable row
and one row with an unparsable cutoff rank. -/
def sampleRaw : List RawRecord :=
  [{ collegeCode := "C1", collegeName := "Alpha", branchCode := "B1",
     branchName := "CS", categoryCode := "GOPENS", quota := "General",
     category := "Open", seatType := "State Level", round := "1",
     cutoffRank := some 1000, cutoffPercentile := some 99 },
   { collegeCode := "C2", collegeName := "Beta", branchCode := "B2",
     branchName := "IT", categoryCode := "GOPENS", quota := "General",
     category := "Open", seatType := "State Level", round := "1",
     cutoffRank := none, cutoffPercentile := some 98 }]

/-- Witness for C2 on a one-record frame with `student_rank = 1000` and
zero deltas. -/
theorem range_stage_window_invariant_witness :
    (0 : Int) < 1000 ∧ (0 : Int) ≤ 0 ∧
    sampleRecord ∈ applyRangeFilter 1000 0 0 [sampleRecord] ∧
    (max 1 ((1000 : Int) - 0) ≤ sampleRecord.cutoffRank ∧
      sampleRecord.cutoffRank ≤ 1000 + 0 ∧
      sampleRecord.cutoffRank ≠ 999999) :=
  ⟨by decide, by decide, by decide,
    range_stage_window_invariant [sampleRecord] 1000 0 0 sampleRecord
      (by decide) (by decide) (by decide) (by decide)⟩

/-- C10: a successful `load_data` yields no record with the sentinel
cutoff rank 999999 — unparsable rows become the sentinel and are removed
at load time — so on loaded (and then categorically filtered) data the
sentinel-exclusion conjunct of the range filter removes nothing: the
range filter coincides with the same filter without that conjunct. -/
theorem loaded_data_no_sentinel (raw : List RawRecord) (df : List Record)
    (hload : load_data (some raw) = some df) :
    (∀ r ∈ df, r.cutoffRank ≠ 999999) ∧
    ∀ (student_rank rank_range_lower rank_range_upper : Int) (q c st rn : String),
      applyRangeFilter student_rank rank_range_lower rank_range_upper
        (applyCategoricalFilters q c st rn df) =
      applyRangeFilterNoSentinel student_rank rank_range_lower rank_range_upper
        (applyCategoricalFilters q c st rn df) := by
  have hdf : df = (raw.map cleanRecord).filter fun r => r.cutoffRank != 999999 := by
    simpa [load_data] using hload.symm
  have hmem : ∀ r ∈ df, r.cutoffRank ≠ 999999 := by
    intro r hr
    rw [hdf] at hr
    exact bne_iff_ne.mp (List.mem_filter.mp hr).2
  refine ⟨hmem, ?_⟩
  intro sr lo hi q c st rn
  unfold applyRangeFilter applyRangeFilterNoSentinel
  apply List.filter_congr
  intro x hx
  have hx9 : (x.cutoffRank != 999999) = true :=
    bne_iff_ne.mpr (hmem x (mem_of_mem_applyCategoricalFilters hx))
  rw [hx9, Bool.and_true]

/-- Witness for C10 on the concrete two-row raw source (one unparsable
row). -/
theorem loaded_data_no_sentinel_witness :
    load_data (some sampleRaw) = some [sampleRecord] ∧
    sampleRecord.cutoffRank ≠ 999999 ∧
    applyRangeFilter 1000 0 500 (applyCategoricalFilters "All" "All" "All" "1" [sampleRecord]) =
      applyRangeFilterNoSentinel 1000 0 500
        (applyCategoricalFilters "All" "All" "All" "1" [sampleRecord]) :=
  ⟨by decide,
    (loaded_data_no_sentinel sampleRaw [sampleRecord] (by decide)).1 sampleRecord (by decide),
    (loaded_data_no_sentinel sampleRaw [sampleRecord] (by decide)).2 1000 0 500
      "All" "All" "All" "1"⟩

/-- C7: whenever the categorical stage, the rank-window stage or the
minimum-probability stage of `generate_preference_list` leaves no rows,
the function returns the empty result set together with the empty
histogram (empty value list, bin count 20) — no error path exists. -/
theorem empty_stage_empty_result (source : Option (List RawRecord))
    (student_rank : Int) (quota category seat_type round_no : String)
    (min_probability : ℚ) (rank_range_lower rank_range_upper : Int)
    (df0 : List Record) (hload : load_data source = some df0)
    (hemp :
      applyCategoricalFilters quota category seat_type round_no df0 = [] ∨
      applyRangeFilter student_rank rank_range_lower rank_range_upper
        (applyCategoricalFilters quota category seat_type round_no df0) = [] ∨
      ((applyRangeFilter student_rank rank_range_lower rank_range_upper
          (applyCategoricalFilters quota category seat_type round_no df0)).map
        (scoreRecord student_rank)).filter
          (fun s => decide (min_probability ≤ s.probability)) = []) :
    generate_preference_list source student_rank quota category seat_type round_no
      min_probability rank_range_lower rank_range_upper = ([], emptyPlot) ∧
    emptyPlot.x = [] ∧ emptyPlot.nbinsx = 20 := by
  refine ⟨?_, rfl, rfl⟩
  rcases hemp with h | h | h
  · simp [generate_preference_list, hload, h]
  · by_cases h1 : applyCategoricalFilters quota category seat_type round_no df0 = []
    · simp [generate_preference_list, hload, h1]
    · simp [generate_preference_list, hload, List.isEmpty_iff, h1, h]
  · by_cases h1 : applyCategoricalFilters quota category seat_type round_no df0 = []
    · simp [generate_preference_list, hload, h1]
    · by_cases h2 : applyRangeFilter student_rank rank_range_lower rank_range_upper
        (applyCategoricalFilters quota category seat_type round_no df0) = []
      · simp [generate_preference_list, hload, List.isEmpty_iff, h1, h2]
      · simp [generate_preference_list, hload, List.isEmpty_iff, h1, h2, h]

/-- Witness for C7: a source whose only rows are in round 1, queried for
round 2, empties the categorical stage. -/
theorem empty_stage_empty_result_witness :
    load_data (some sampleRaw) = some [sampleRecord] ∧
    (applyCategoricalFilters "All" "All" "All" "2" [sampleRecord] = [] ∨
      applyRangeFilter 1000 1000 3000 (applyCategoricalFilters "All" "All" "All" "2" [sampleRecord]) = [] ∨
      ((applyRangeFilter 1000 1000 3000 (applyCategoricalFilters "All" "All" "All" "2" [sampleRecord])).map
        (scoreRecord 1000)).filter (fun s => decide ((0 : ℚ) ≤ s.probability)) = []) ∧
    (generate_preference_list (some sampleRaw) 1000 "All" "All" "All" "2" 0 1000 3000 =
      ([], emptyPlot) ∧ emptyPlot.x = [] ∧ emptyPlot.nbinsx = 20) :=
  ⟨by decide, Or.inl (by decide),
    empty_stage_empty_result (some sampleRaw) 1000 "All" "All" "All" "2" 0 1000 3000
      [sampleRecord] (by decide) (Or.inl (by decide))⟩

/-- C8: when the data source cannot be read or parsed, `load_data`
returns the absent-data indicator `none` rather than raising, and
`generate_preference_list` then returns the empty result set with the
empty histogram value list instead of crashing. -/
theorem data_unavailable_empty_result (student_rank : Int)
    (quota category seat_type round_no : String) (min_probability : ℚ)
    (rank_range_lower rank_range_upper : Int) :
    load_data none = none ∧
    generate_preference_list none student_rank quota category seat_type round_no
      min_probability rank_range_lower rank_range_upper = ([], emptyPlot) ∧
    emptyPlot.x = [] :=
  ⟨rfl, rfl, rfl⟩

/-- C9: the `/api/predict` route rejects a request — before any
generation runs, with a descriptive message — whenever
`rank_range_lower` lies outside `[0, 5000]`, `rank_range_upper` lies
outside `[0, 10000]`, or their sum exceeds 15000 (the sum bound is
subsumed by the two interval bounds); a request whose deltas satisfy all
three bounds is never rejected on these grounds. -/
theorem predict_range_validation (source : Option (List RawRecord))
    (student_rank : Int) (quota category seat_type round_no : String)
    (min_probability : ℚ) (rank_range_lower rank_range_upper : Int) :
    ((rank_range_lower < 0 ∨ 5000 < rank_range_lower ∨ rank_range_upper < 0 ∨
        10000 < rank_range_upper ∨ 15000 < rank_range_lower + rank_range_upper) →
      ∃ msg, predict_preferences source student_rank quota category seat_type round_no
        min_probability rank_range_lower rank_range_upper = .rejected msg) ∧
    ((0 ≤ rank_range_lower ∧ rank_range_lower ≤ 5000 ∧ 0 ≤ rank_range_upper ∧
        rank_range_upper ≤ 10000 ∧ rank_range_lower + rank_range_upper ≤ 15000) →
      (validate_inputs student_rank quota category seat_type round_no).1 = true →
      ∃ prefs plot, predict_preferences source student_rank quota category seat_type
        round_no min_probability rank_range_lower rank_range_upper =
          .success prefs plot) := by
  constructor
  · intro hbad
    simp only [predict_preferences]
    by_cases hv : (validate_inputs student_rank quota category seat_type round_no).1 = false
    · exact ⟨_, by rw [if_pos hv]⟩
    · rw [if_neg hv]
      by_cases h1 : rank_range_lower < 0
      · exact ⟨_, by rw [if_pos h1]⟩
      · rw [if_neg h1]
        by_cases h2 : rank_range_upper < 0
        · exact ⟨_, by rw [if_pos h2]⟩
        · rw [if_neg h2]
          by_cases h3 : rank_range_lower > 5000
          · exact ⟨_, by rw [if_pos h3]⟩
          · rw [if_neg h3]
            have h4 : rank_range_upper > 10000 := by omega
            exact ⟨_, by rw [if_pos h4]⟩
  · rintro ⟨hl0, hl5, hu0, hu10, -⟩ hv
    simp only [predict_preferences]
    rw [if_neg (by simp [hv]), if_neg (by omega), if_neg (by omega),
      if_neg (by omega), if_neg (by omega)]
    by_cases he : (generate_preference_list source student_rank quota category
        seat_type round_no min_probability rank_range_lower rank_range_upper).1.isEmpty
    · exact ⟨[], emptyPlot, by rw [if_pos he]⟩
    · exact ⟨_, _, by rw [if_neg he]⟩

/-- Witness for C9: a negative safe range is rejected; in-bound ranges
with valid inputs succeed. -/
theorem predict_range_validation_witness :
    (((-1 : Int) < 0 ∨ (5000 : Int) < -1 ∨ (3000 : Int) < 0 ∨ (10000 : Int) < 3000 ∨
        (15000 : Int) < -1 + 3000) ∧
      ∃ msg, predict_preferences none 1000 "General" "Open" "State Level" "1"
        0 (-1) 3000 = .rejected msg) ∧
    (((0 : Int) ≤ 1000 ∧ (1000 : Int) ≤ 5000 ∧ (0 : Int) ≤ 3000 ∧ (3000 : Int) ≤ 10000 ∧
        (1000 : Int) + 3000 ≤ 15000) ∧
      (validate_inputs 1000 "General" "Open" "State Level" "1").1 = true ∧
      ∃ prefs plot, predict_preferences none 1000 "General" "Open" "State Level" "1"
        0 1000 3000 = .success prefs plot) :=
  ⟨⟨by decide,
      (predict_range_validation none 1000 "General" "Open" "State Level" "1" 0 (-1) 3000).1
        (by decide)⟩,
    ⟨by decide, by decide,
      (predict_range_validation none 1000 "General" "Open" "State Level" "1" 0 1000 3000).2
        (by decide) (by decide)⟩⟩

lemma prefLE_trans (a b c : ScoredRecord) (hab : prefLE a b = true)
    (hbc : prefLE b c = true) : prefLE a c = true := by
  simp only [prefLE, Bool.or_eq_true, Bool.and_eq_true, decide_eq_true_eq] at *
  rcases hab with h | ⟨h1, h2⟩ <;> rcases hbc with g | ⟨g1, g2⟩
  · exact Or.inl (lt_trans g h)
  · exact Or.inl (by rw [← g1]; exact h)
  · exact Or.inl (by rw [h1]; exact g)
  · exact Or.inr ⟨h1.trans g1, le_trans h2 g2⟩

lemma prefLE_total (a b : ScoredRecord) : (prefLE a b || prefLE b a) = true := by
  simp only [prefLE, Bool.or_eq_true, Bool.and_eq_true, decide_eq_true_eq]
  rcases lt_trichotomy a.probability b.probability with h | h | h
  · exact Or.inr (Or.inl h)
  · rcases le_total a.record.cutoffRank b.record.cutoffRank with hc | hc
    · exact Or.inl (Or.inr ⟨h, hc⟩)
    · exact Or.inr (Or.inr ⟨h.symm, hc⟩)
  · exact Or.inl (Or.inl h)

lemma addPreferences_length (l : List ScoredRecord) :
    (addPreferences l).length = l.length := by
  simp [addPreferences, List.enumFrom_length]

lemma addPreferences_getElem (l : List ScoredRecord) (i : Nat)
    (h : i < (addPreferences l).length) (h' : i < l.length) :
    (addPreferences l)[i] = toResultRow (1 + i) l[i] := by
  simp [addPreferences, List.getElem_map, List.getElem_enumFrom]

lemma sorted_numbered_core (res : List ResultRow)
    (hres : res = [] ∨ ∃ l : List ScoredRecord, res = addPreferences (l.mergeSort prefLE)) :
    (∀ (i : Nat) (h : i + 1 < res.length),
      (res.get ⟨i + 1, h⟩).probability ≤ (res.get ⟨i, Nat.lt_of_succ_lt h⟩).probability ∧
      ((res.get ⟨i, Nat.lt_of_succ_lt h⟩).probability = (res.get ⟨i + 1, h⟩).probability →
        (res.get ⟨i, Nat.lt_of_succ_lt h⟩).cutoffRank ≤ (res.get ⟨i + 1, h⟩).cutoffRank)) ∧
    res.map (fun r => r.preference) = List.range' 1 res.length := by
  rcases hres with rfl | ⟨l, rfl⟩
  · exact ⟨fun i h => absurd h (by simp), by simp⟩
  · have hsort : List.Pairwise (fun a b => prefLE a b = true) (l.mergeSort prefLE) :=
      List.sorted_mergeSort prefLE_trans prefLE_total l
    constructor
    · intro i h
      have hlen := addPreferences_length (l.mergeSort prefLE)
      have hi1 : i + 1 < (l.mergeSort prefLE).length := by omega
      have hi0 : i < (l.mergeSort prefLE).length := Nat.lt_of_succ_lt hi1
      simp only [List.get_eq_getElem]
      rw [addPreferences_getElem (l.mergeSort prefLE) (i + 1) h hi1,
        addPreferences_getElem (l.mergeSort prefLE) i (Nat.lt_of_succ_lt h) hi0]
      have hp := List.pairwise_iff_get.mp hsort ⟨i, hi0⟩ ⟨i + 1, hi1⟩ (Nat.lt_succ_self i)
      simp only [List.get_eq_getElem, prefLE, Bool.or_eq_true, Bool.and_eq_true,
        decide_eq_true_eq] at hp
      simp only [toResultRow]
      rcases hp with hlt | ⟨heq, hle⟩
      · exact ⟨le_of_lt hlt, fun h2 => absurd (h2 ▸ hlt) (lt_irrefl _)⟩
      · exact ⟨le_of_eq heq.symm, fun h2 => hle⟩
    · apply List.ext_getElem
      · simp [addPreferences_length, List.length_range']
      · intro n h1 h2
        have hn : n < (addPreferences (l.mergeSort prefLE)).length := by simpa using h1
        have hn' : n < (l.mergeSort prefLE).length := by
          have := addPreferences_length (l.mergeSort prefLE); omega
        rw [List.getElem_map, List.getElem_range',
          addPreferences_getElem (l.mergeSort prefLE) n hn hn']
        simp [toResultRow]

/-- C3: the result sequence of `generate_preference_list` is sorted by
probability descending with ties broken by cutoff rank ascending — for
any two adjacent rows, `probability[i] ≥ probability[i+1]`, and on equal
probabilities `cutoff_rank[i] ≤ cutoff_rank[i+1]` — and its `Preference`
values are exactly `1..N` in that order, with no gaps or repeats. -/
theorem preference_list_sorted_and_numbered (source : Option (List RawRecord))
    (student_rank : Int) (quota category seat_type round_no : String)
    (min_probability : ℚ) (rank_range_lower rank_range_upper : Int) :
    (∀ (i : Nat)
      (h : i + 1 < ((generate_preference_list source student_rank quota category
        seat_type round_no min_probability rank_range_lower rank_range_upper).1).length),
      (((generate_preference_list source student_rank quota category seat_type round_no
          min_probability rank_range_lower rank_range_upper).1).get ⟨i + 1, h⟩).probability ≤
        (((generate_preference_list source student_rank quota category seat_type round_no
          min_probability rank_range_lower rank_range_upper).1).get
            ⟨i, Nat.lt_of_succ_lt h⟩).probability ∧
      ((((generate_preference_list source student_rank quota category seat_type round_no
          min_probability rank_range_lower rank_range_upper).1).get
            ⟨i, Nat.lt_of_succ_lt h⟩).probability =
          (((generate_preference_list source student_rank quota category seat_type round_no
            min_probability rank_range_lower rank_range_upper).1).get ⟨i + 1, h⟩).probability →
        (((generate_preference_list source student_rank quota category seat_type round_no
          min_probability rank_range_lower rank_range_upper).1).get
            ⟨i, Nat.lt_of_succ_lt h⟩).cutoffRank ≤
          (((generate_preference_list source student_rank quota category seat_type round_no
            min_probability rank_range_lower rank_range_upper).1).get
              ⟨i + 1, h⟩).cutoffRank)) ∧
    ((generate_preference_list source student_rank quota category seat_type round_no
      min_probability rank_range_lower rank_range_upper).1).map (fun r => r.preference) =
      List.range' 1 ((generate_preference_list source student_rank quota category
        seat_type round_no min_probability rank_range_lower rank_range_upper).1).length := by
  apply sorted_numbered_core
  cases hsrc : load_data source with
  | none => exact Or.inl (by simp [generate_preference_list, hsrc])
  | some df0 =>
    simp only [generate_preference_list, hsrc]
    split
    · exact Or.inl rfl
    · split
      · exact Or.inl rfl
      · split
        · exact Or.inl rfl
        · exact Or.inr ⟨_, rfl⟩

/-- Witness for C3: the sortedness and numbering properties at a
concrete request on the concrete sample source. -/
theorem preference_list_sorted_and_numbered_witness :
    (∀ (i : Nat)
      (h : i + 1 < ((generate_preference_list (some sampleRaw) 1000 "All" "All" "All" "1"
        0 1000 3000).1).length),
      (((generate_preference_list (some sampleRaw) 1000 "All" "All" "All" "1"
          0 1000 3000).1).get ⟨i + 1, h⟩).probability ≤
        (((generate_preference_list (some sampleRaw) 1000 "All" "All" "All" "1"
          0 1000 3000).1).get ⟨i, Nat.lt_of_succ_lt h⟩).probability ∧
      ((((generate_preference_list (some sampleRaw) 1000 "All" "All" "All" "1"
          0 1000 3000).1).get ⟨i, Nat.lt_of_succ_lt h⟩).probability =
          (((generate_preference_list (some sampleRaw) 1000 "All" "All" "All" "1"
            0 1000 3000).1).get ⟨i + 1, h⟩).probability →
        (((generate_preference_list (some sampleRaw) 1000 "All" "All" "All" "1"
          0 1000 3000).1).get ⟨i, Nat.lt_of_succ_lt h⟩).cutoffRank ≤
          (((generate_preference_list (some sampleRaw) 1000 "All" "All" "All" "1"
            0 1000 3000).1).get ⟨i + 1, h⟩).cutoffRank)) ∧
    ((generate_preference_list (some sampleRaw) 1000 "All" "All" "All" "1"
      0 1000 3000).1).map (fun r => r.preference) =
      List.range' 1 ((generate_preference_list (some sampleRaw) 1000 "All" "All" "All" "1"
        0 1000 3000).1).length :=
  preference_list_sorted_and_numbered (some sampleRaw) 1000 "All" "All" "All" "1" 0 1000 3000
